import Mathlib

/-!
Shallow embedding of the ChatApp component of Compose-Chat
(src/unnamed/part_000, a single React component backed by a remote
backend-as-a-service). The embedding models the component state held in the
useState hooks, the event handlers (fetchMessages, fetchProfiles, the live
INSERT subscription callback, sendMessage, signUp, signOut), the signup form
constraint validation, the effect lifecycle of the live subscription, and the
view selection performed at render time. Backend calls are modelled by passing
their result explicitly; each handler returns the new state together with any
network request it issued.
-/

namespace ComposeChat

/-- Message record (source lines 6-13). The created_at timestamp string is
modelled as a Nat ordinal: timestamps are totally ordered and the code only
compares them through the ordered query. -/
structure Message where
  id : Int
  created_at : Nat
  content : String
  user_id : String
  user_email : String
  deriving DecidableEq, Repr

/-- Profile record (source lines 15-20). -/
structure Profile where
  id : String
  username : String
  avatar_url : Option String
  updated_at : Option String
  deriving DecidableEq, Repr

/-- The part of the backend session the component reads (user id and email). -/
structure Session where
  user_id : String
  user_email : String
  deriving DecidableEq, Repr

/-- The view discriminator (source line 35). -/
inductive View where
  | chat
  | login
  | signup
  deriving DecidableEq, Repr

/-- Component state: the useState hooks of ChatApp (source lines 29-39). The
profiles record is modelled as a function from keys, the usual shallow
embedding of a string-keyed object. -/
structure AppState where
  session : Option Session
  messages : List Message
  newMessage : String
  loading : Bool
  email : String
  password : String
  view : View
  error : Option String
  menuOpen : Bool
  profiles : String → Option Profile

/-- ECMAScript whitespace, as recognised by String.prototype.trim. -/
def isJsWhitespace (c : Char) : Bool :=
  c = ' ' || c = '\t' || c = '\n' || c = '\r' ||
  c.toNat = 11 || c.toNat = 12 || c.toNat = 160 ||
  c.toNat = 0x2028 || c.toNat = 0x2029 || c.toNat = 0xFEFF

/-- ECMAScript String.prototype.trim: strip leading and trailing whitespace. -/
def jsTrim (s : String) : String :=
  String.mk (((s.data.dropWhile isJsWhitespace).reverse.dropWhile
    isJsWhitespace).reverse)

/-- Ordering used by the initial load query: created_at ascending (line 99). -/
def msgLe (a b : Message) : Prop :=
  a.created_at ≤ b.created_at

instance : DecidableRel msgLe :=
  fun a b => Nat.decLe a.created_at b.created_at

instance : IsTotal Message msgLe :=
  ⟨fun a b => Nat.le_total a.created_at b.created_at⟩

instance : IsTrans Message msgLe :=
  ⟨fun _ _ _ h1 h2 => Nat.le_trans h1 h2⟩

/-- The backend query issued by fetchMessages: select all messages ordered by
created_at ascending (source lines 96-99), modelled as sorting the backend
table by that key. -/
def queryMessages (table : List Message) : List Message :=
  table.insertionSort msgLe

/-- One step of building a JS Set from a list: keep the element only if it is
not already present, preserving insertion order. -/
def jsSetInsert (acc : List String) (x : String) : List String :=
  if x ∈ acc then acc else acc ++ [x]

/-- Spreading a JS Set built from a list (source line 106): first occurrences,
in insertion order. -/
def jsSetDedup (xs : List String) : List String :=
  xs.foldl jsSetInsert []

/-- fetchMessages (source lines 94-112) applied to the backend response: on
success the feed is replaced by the response and enrichment is requested for
the deduplicated sender ids; on error the handler only logs. Returns the new
state and the enrichment batch requested, if any. -/
def fetchMessages (st : AppState) (resp : Except String (List Message)) :
    AppState × Option (List String) :=
  match resp with
  | Except.error _ => (st, none)
  | Except.ok data =>
      ({ st with messages := data },
        some (jsSetDedup (data.map Message.user_id)))

/-- One step of the reduce at source lines 126-129: assign the record field for
the profile id, shadowing any earlier assignment. -/
def recordSet (acc : String → Option Profile) (p : Profile) :
    String → Option Profile :=
  fun k => if k = p.id then some p else acc k

/-- The reduce at source lines 126-129: a record keyed by profile id, later
entries overwriting earlier ones. -/
def profileMapOf (data : List Profile) : String → Option Profile :=
  data.foldl recordSet (fun _ => none)

/-- JS object spread at source line 131: keys of the second record override
the first. -/
def spreadMerge (prev m : String → Option Profile) : String → Option Profile :=
  fun k =>
    match m k with
    | some v => some v
    | none => prev k

/-- fetchProfiles (source lines 115-136) applied to the backend response: on
success merge the fetched profiles into the cache; on error only log, leaving
the cache unchanged. -/
def fetchProfiles (st : AppState) (resp : Except String (List Profile)) :
    AppState :=
  match resp with
  | Except.error _ => st
  | Except.ok data =>
      { st with profiles := spreadMerge st.profiles (profileMapOf data) }

/-- The live INSERT subscription callback (source lines 81-85): append the
delivered message at the end of the feed and request enrichment for its sender
id. Returns the new state and the enrichment batch issued, none meaning no
request. -/
def onInsertMessage (st : AppState) (m : Message) :
    AppState × Option (List String) :=
  ({ st with messages := st.messages ++ [m] }, some [m.user_id])

/-- The insert payload sendMessage submits (source lines 146-152). -/
structure InsertRequest where
  content : String
  user_id : String
  user_email : String
  deriving DecidableEq, Repr

/-- sendMessage (source lines 139-160): early return when the trimmed input is
empty or there is no session; otherwise submit the insert and clear the input
buffer on success, while a failed insert only logs. Returns the new state and
the network request issued, if any. -/
def sendMessage (st : AppState) (result : Except String Unit) :
    AppState × Option InsertRequest :=
  if jsTrim st.newMessage = "" ∨ st.session = none then (st, none)
  else
    match st.session with
    | none => (st, none)
    | some s =>
        let req : InsertRequest :=
          { content := st.newMessage, user_id := s.user_id,
            user_email := s.user_email }
        match result with
        | Except.ok _ => ({ st with newMessage := "" }, some req)
        | Except.error _ => (st, some req)

/-- signUp (source lines 184-202) applied to the backend result, none meaning
success and some msg an auth error message: the previous error is cleared, and
on success the inputs are cleared and the confirmation notice is stored in the
error state; on failure the error message is stored. The loading flag always
resolves; session, view, messages and profiles are untouched. -/
def signUp (st : AppState) (result : Option String) : AppState :=
  match result with
  | none =>
      { st with email := "", password := "",
                error := some "Check your email for the confirmation link.",
                loading := false }
  | some msg => { st with error := some msg, loading := false }

/-- The registration payload submitted by signUp (source lines 189-192). -/
structure RegisterRequest where
  email : String
  password : String
  deriving DecidableEq, Repr

/-- HTML constraint validation of the signup form (source lines 328-356): the
email input is required and the password input is required with minLength 6;
the browser blocks form submission when a constraint fails, so the signUp
handler never runs. The format check of the email input type is not modelled;
leaving it out only admits more submissions and cannot weaken the
password-length guarantee. -/
def signupFormValid (email password : String) : Bool :=
  email != "" && password != "" && decide (6 ≤ password.length)

/-- Submitting the signup form: constraint validation gates the handler; when
it passes, signUp runs and the registration request reaches the backend. -/
def submitSignupForm (st : AppState) (result : Option String) :
    AppState × Option RegisterRequest :=
  if signupFormValid st.email st.password then
    (signUp st result, some { email := st.email, password := st.password })
  else (st, none)

/-- The onAuthStateChange listener (source lines 56-59): store the new session
and trigger an initial load exactly when it is non-null. Returns the state and
whether fetchMessages fires. -/
def onAuthStateChange (st : AppState) (s : Option Session) : AppState × Bool :=
  ({ st with session := s }, s.isSome)

/-- signOut (source lines 205-216) together with the auth listener firing with
a null session once the backend deauthenticates: the view returns to login,
the menu overlay closes, the loading flag resolves. Nothing else is written:
messages and profiles keep their previous values. -/
def signOut (st : AppState) : AppState :=
  let st1 := (onAuthStateChange st none).1
  { st1 with view := View.login, menuOpen := false, loading := false }

/-- One feed-affecting event: an initial load (fetchMessages over a backend
table) or a live-append delivery. -/
inductive FeedEvent where
  | load (table : List Message)
  | live (m : Message)
  deriving Repr

/-- Effect of a feed event on the displayed sequence: the messages projection
of fetchMessages (source line 104) and of the subscription callback (source
line 83). -/
def applyFeedEvent (feed : List Message) : FeedEvent → List Message
  | FeedEvent.load table => queryMessages table
  | FeedEvent.live m => feed ++ [m]

/-- The displayed sequence after a sequence of feed events, starting from the
empty feed. -/
def runFeed (events : List FeedEvent) : List Message :=
  events.foldl applyFeedEvent []

/-- Lifecycle events of the subscription effect (source lines 71-91): a rerun
of the effect when its dependencies change (session or client identity),
carrying whether a session is present, and the final unmount. -/
inductive SubEvent where
  | rerun (hasSession : Bool)
  | unmount
  deriving DecidableEq, Repr

/-- active: number of open realtime channels; pending: whether the latest
effect run returned a cleanup that still has a channel to remove. -/
structure SubState where
  active : Nat
  pending : Bool
  deriving DecidableEq, Repr

/-- React effect semantics for the subscription effect: a rerun first executes
the previous cleanup (removeChannel, source line 89), then the body, which
subscribes exactly when a session is present (source lines 72-86); unmount
executes the last cleanup. -/
def applySubEvent (s : SubState) : SubEvent → SubState
  | SubEvent.rerun hasSession =>
      let s1 : SubState :=
        if s.pending then { active := s.active - 1, pending := false } else s
      if hasSession then { active := s1.active + 1, pending := true } else s1
  | SubEvent.unmount =>
      if s.pending then { active := s.active - 1, pending := false } else s

/-- Subscription state after a sequence of effect lifecycle events, from the
initial mounted state with no open channel. -/
def runSub (events : List SubEvent) : SubState :=
  events.foldl applySubEvent { active := 0, pending := false }

/-- The possible render outputs of ChatApp (source lines 515-537): the loading
screen, the three views, and the null that renderChat returns without a
session (source line 392). -/
inductive Rendered where
  | loadingScreen
  | loginView
  | signupView
  | chatView
  | nullView
  deriving DecidableEq, Repr

/-- One render pass of ChatApp (source lines 515-537). Sum.inr v models the
render-phase setView call at source line 527: React discards this pass and
rerenders with view v. -/
def renderOnce (loading : Bool) (session : Option Session) (view : View) :
    Sum Rendered View :=
  if loading = true ∧ session = none then Sum.inl Rendered.loadingScreen
  else if session.isSome = true ∧ view ≠ View.chat then Sum.inr View.chat
  else
    match view with
    | View.signup => Sum.inl Rendered.signupView
    | View.chat =>
        if session.isSome then Sum.inl Rendered.chatView
        else Sum.inl Rendered.nullView
    | View.login => Sum.inl Rendered.loginView

/-- The committed render: when a pass updates the view state during render,
React rerenders with the new view before committing; the second pass never
updates again, so two passes suffice and the fallback branch is unreachable. -/
def render (loading : Bool) (session : Option Session) (view : View) :
    Rendered :=
  match renderOnce loading session view with
  | Sum.inl r => r
  | Sum.inr v =>
      match renderOnce loading session v with
      | Sum.inl r => r
      | Sum.inr _ => Rendered.loadingScreen

/-- The error box of the signup view (source lines 322-326): rendered with the
destructive styling exactly when the error state is set, showing that string. -/
def renderSignupErrorBox (st : AppState) : Option String :=
  st.error

/-- Sample message used in concrete scenarios. -/
def mA : Message :=
  { id := 1, created_at := 10, content := "hello", user_id := "u1",
    user_email := "a@x.com" }

/-- Sample profile for user u1. -/
def profU1 : Profile :=
  { id := "u1", username := "alice", avatar_url := none, updated_at := none }

/-- A later fetch result for the same user u1. -/
def profU1b : Profile :=
  { id := "u1", username := "alice2", avatar_url := some "http://a/x.png",
    updated_at := some "t2" }

/-- Sample session. -/
def sessA : Session :=
  { user_id := "u1", user_email := "a@x.com" }

/-- Sample profile cache holding exactly u1. -/
def cacheU1 : String → Option Profile :=
  fun k => if k = "u1" then some profU1 else none

/-- Sample authenticated state with a nonempty feed and a cached profile. -/
def stBase : AppState :=
  { session := some sessA, messages := [mA], newMessage := "",
    loading := false, email := "", password := "", view := View.chat,
    error := none, menuOpen := true, profiles := cacheU1 }

/-- Sample unauthenticated state sitting on the signup view. -/
def stSignup : AppState :=
  { session := none, messages := [], newMessage := "", loading := true,
    email := "a@x.com", password := "abcdef", view := View.signup,
    error := none, menuOpen := false, profiles := fun _ => none }

/-- A list all of whose characters are whitespace trims to nothing. -/
lemma jsTrim_of_all {s : String} (h : s.data.all isJsWhitespace = true) :
    jsTrim s = "" := by
  have h1 : s.data.dropWhile isJsWhitespace = [] :=
    List.dropWhile_eq_nil_iff.mpr (by simpa [List.all_eq_true] using h)
  simp [jsTrim, h1]

/-- Membership after folding jsSetInsert: an element is present exactly when it
was in the accumulator or in the remaining input. -/
lemma mem_foldl_jsSetInsert (xs : List String) (acc : List String)
    (y : String) :
    y ∈ xs.foldl jsSetInsert acc ↔ y ∈ acc ∨ y ∈ xs := by
  induction xs generalizing acc with
  | nil => simp
  | cons x xs ih =>
      rw [List.foldl_cons, ih]
      by_cases hx : x ∈ acc
      · have hyx : y = x → y ∈ acc := fun h => h ▸ hx
        simp only [jsSetInsert, if_pos hx, List.mem_cons]
        tauto
      · simp only [jsSetInsert, if_neg hx, List.mem_append,
          List.mem_singleton, List.mem_cons]
        tauto

/-- Folding jsSetInsert preserves the no-duplicates property. -/
lemma nodup_foldl_jsSetInsert (xs : List String) (acc : List String)
    (h : acc.Nodup) : (xs.foldl jsSetInsert acc).Nodup := by
  induction xs generalizing acc with
  | nil => simpa using h
  | cons x xs ih =>
      rw [List.foldl_cons]
      apply ih
      by_cases hx : x ∈ acc
      · simpa [jsSetInsert, if_pos hx] using h
      · simp [jsSetInsert, if_neg hx, List.nodup_append, h, hx]

/-- The deduplicated sender list has no duplicates. -/
lemma jsSetDedup_nodup (xs : List String) : (jsSetDedup xs).Nodup :=
  nodup_foldl_jsSetInsert xs [] List.nodup_nil

/-- The deduplicated sender list has exactly the elements of the input. -/
lemma mem_jsSetDedup (xs : List String) (y : String) :
    y ∈ jsSetDedup xs ↔ y ∈ xs := by
  rw [jsSetDedup, mem_foldl_jsSetInsert]
  simp

/-- Invariant of the subscription effect machine: the number of open channels
is one exactly when a cleanup is pending, zero otherwise. -/
lemma sub_invariant (events : List SubEvent) (s : SubState)
    (h : s.active = if s.pending then 1 else 0) :
    (events.foldl applySubEvent s).active =
      if (events.foldl applySubEvent s).pending then 1 else 0 := by
  induction events generalizing s with
  | nil => simpa using h
  | cons e es ih =>
      rw [List.foldl_cons]
      apply ih
      cases e with
      | rerun hasSession =>
          by_cases hp : s.pending = true <;> cases hasSession <;>
            simp_all [applySubEvent]
      | unmount =>
          by_cases hp : s.pending = true <;> simp_all [applySubEvent]

/-- C2: for every sequence of effect lifecycle events driven by sign-in and
sign-out transitions, the controller holds at most one open live subscription
channel; a rerun with a session present leaves exactly one, a rerun after the
session ended leaves none, and the final unmount leaves none — the channel is
never leaked across sign-out/sign-in cycles. -/
theorem subscription_lifecycle (events : List SubEvent) :
    (runSub events).active ≤ 1 ∧
    (runSub (events ++ [SubEvent.rerun true])).active = 1 ∧
    (runSub (events ++ [SubEvent.rerun false])).active = 0 ∧
    (runSub (events ++ [SubEvent.unmount])).active = 0 := by
  have hinv : (runSub events).active =
      if (runSub events).pending then 1 else 0 :=
    sub_invariant events { active := 0, pending := false } rfl
  have happ : ∀ e : SubEvent,
      runSub (events ++ [e]) = applySubEvent (runSub events) e := by
    intro e
    rw [runSub, List.foldl_append]
    rfl
  refine ⟨?_, ?_, ?_, ?_⟩
  · rw [hinv]
    split <;> omega
  · rw [happ]
    by_cases hp : (runSub events).pending = true <;>
      simp_all [applySubEvent]
  · rw [happ]
    by_cases hp : (runSub events).pending = true <;>
      simp_all [applySubEvent]
  · rw [happ]
    by_cases hp : (runSub events).pending = true <;>
      simp_all [applySubEvent]

/-- C1: the code appends live deliveries without de-duplicating, so an initial
load of the history containing message id 1 followed by a live redelivery of
that same message leaves the displayed id sequence [1, 1] — the no-duplicate
invariant fails on the code at this input. -/
theorem live_redelivery_duplicates_id :
    (runFeed [FeedEvent.load [mA], FeedEvent.live mA]).map Message.id =
      [1, 1] ∧
    ¬ ((runFeed [FeedEvent.load [mA],
        FeedEvent.live mA]).map Message.id).Nodup := by
  constructor
  · rfl
  · decide

/-- C3: sendMessage is a no-op issuing no network call and changing no state
whenever the input is empty or whitespace-only or no session is active. -/
theorem sendMessage_blank_or_no_session_noop (st : AppState)
    (r : Except String Unit)
    (h : st.newMessage.data.all isJsWhitespace = true ∨ st.session = none) :
    sendMessage st r = (st, none) := by
  rcases h with h | h
  · rw [sendMessage, if_pos (Or.inl (jsTrim_of_all h))]
  · rw [sendMessage, if_pos (Or.inr h)]

/-- C3 witness: the empty and the three-space input issue no network call and
leave the state unchanged, even with an active session. -/
theorem sendMessage_blank_witness :
    sendMessage { stBase with newMessage := "" } (Except.ok ()) =
      ({ stBase with newMessage := "" }, none) ∧
    sendMessage { stBase with newMessage := "   " } (Except.ok ()) =
      ({ stBase with newMessage := "   " }, none) :=
  ⟨sendMessage_blank_or_no_session_noop _ _ (Or.inl (by decide)),
   sendMessage_blank_or_no_session_noop _ _ (Or.inl (by decide))⟩

/-- C4 counterexample: starting from an authenticated state with a nonempty
feed and a cached profile, signOut leaves the feed and the cache untouched —
it does not clear them, contradicting the claim at this concrete input. -/
theorem signOut_leaves_feed_and_cache :
    (signOut stBase).messages = [mA] ∧ (signOut stBase).messages ≠ [] ∧
    (signOut stBase).profiles "u1" = some profU1 ∧
    (signOut stBase).profiles "u1" ≠ none := by
  refine ⟨rfl, by decide, rfl, by decide⟩

/-- C4 amended: signOut transitions to Unauthenticated, sets the view back to
login, closes the menu overlay and resolves the loading flag, but it does not
clear the message feed, the profile cache, the error or the input buffer —
those keep their previous values until a later event overwrites them. -/
theorem signOut_spec (st : AppState) :
    (signOut st).session = none ∧ (signOut st).view = View.login ∧
    (signOut st).menuOpen = false ∧ (signOut st).loading = false ∧
    (signOut st).messages = st.messages ∧
    (signOut st).profiles = st.profiles ∧
    (signOut st).error = st.error ∧
    (signOut st).newMessage = st.newMessage :=
  ⟨rfl, rfl, rfl, rfl, rfl, rfl, rfl, rfl⟩

/-- C5 counterexample: on a successful signUp from the signup view the
informational message is stored in the error state and displayed by the
destructive-styled error box, i.e. it does travel the error path, contrary to
the claim that it goes through a non-error channel. -/
theorem signUp_message_in_error_box :
    (signUp stSignup none).error =
      some "Check your email for the confirmation link." ∧
    renderSignupErrorBox (signUp stSignup none) =
      some "Check your email for the confirmation link." :=
  ⟨rfl, rfl⟩

/-- C5 amended: on successful signUp the controller shows the message "Check
your email for the confirmation link.", remains Unauthenticated (session
unchanged) with the view unchanged (staying on signup/login, not chat) and
loading resolved — but the message is carried by the error state, the same
channel used for failures, and shown by the error box. -/
theorem signUp_success_spec (st : AppState) :
    (signUp st none).error =
      some "Check your email for the confirmation link." ∧
    (signUp st none).session = st.session ∧
    (signUp st none).view = st.view ∧
    (signUp st none).loading = false ∧
    renderSignupErrorBox (signUp st none) = (signUp st none).error :=
  ⟨rfl, rfl, rfl, rfl, rfl⟩

/-- C6: the signup form constraint validation blocks submission when the
password is shorter than 6 characters, so no registration request with such a
password reaches the backend and the state is unchanged. -/
theorem signup_short_password_not_submitted (st : AppState)
    (r : Option String) (h : st.password.length < 6) :
    submitSignupForm st r = (st, none) := by
  have h6 : decide (6 ≤ st.password.length) = false :=
    decide_eq_false (Nat.not_le.mpr h)
  have hv : signupFormValid st.email st.password = false := by
    simp [signupFormValid, h6]
  simp [submitSignupForm, hv]

/-- C6 witness: a 3-character password is never submitted. -/
theorem signup_short_password_witness :
    submitSignupForm { stSignup with password := "abc" } none =
      ({ stSignup with password := "abc" }, none) :=
  signup_short_password_not_submitted _ none (by decide)

/-- C8 counterexample: the sender of the delivered message is already present
in the profile cache, yet the live handler still issues the enrichment request
for it — the request is not conditioned on the cache, contrary to the claim. -/
theorem onInsert_refetches_cached_user :
    stBase.profiles "u1" = some profU1 ∧
    (onInsertMessage stBase mA).2 = some ["u1"] :=
  ⟨rfl, rfl⟩

/-- C8 amended: for every live-delivered message the handler appends it at the
end of the displayed sequence unconditionally and issues an enrichment request
for its single sender id unconditionally, whether or not that id is already
cached; the cache itself is not touched by the handler. -/
theorem onInsert_spec (st : AppState) (m : Message) :
    (onInsertMessage st m).1.messages = st.messages ++ [m] ∧
    (onInsertMessage st m).2 = some [m.user_id] ∧
    (onInsertMessage st m).1.profiles = st.profiles :=
  ⟨rfl, rfl, rfl⟩

/-- C7: on a successful initial load, fetchMessages replaces the entire
displayed sequence with the fetched history ordered by created_at ascending —
a full replace independent of any prior feed state — and requests enrichment
for exactly the de-duplicated list of distinct sender ids present in that
history: the request has no duplicates and contains precisely the sender ids
occurring in the loaded history. -/
theorem fetchMessages_replaces_and_dedups (st : AppState)
    (table : List Message) :
    (fetchMessages st (Except.ok (queryMessages table))).1.messages =
      queryMessages table ∧
    List.Sorted msgLe
      (fetchMessages st (Except.ok (queryMessages table))).1.messages ∧
    (fetchMessages st (Except.ok (queryMessages table))).2 =
      some (jsSetDedup ((queryMessages table).map Message.user_id)) ∧
    (jsSetDedup ((queryMessages table).map Message.user_id)).Nodup ∧
    (∀ u : String,
      u ∈ jsSetDedup ((queryMessages table).map Message.user_id) ↔
        u ∈ (queryMessages table).map Message.user_id) :=
  ⟨rfl, List.sorted_insertionSort msgLe table, rfl, jsSetDedup_nodup _,
    fun u => mem_jsSetDedup _ u⟩

/-- Auxiliary: find? over an append looks in the first part first. -/
lemma find?_append_cases {α : Type} (p : α → Bool) (l1 l2 : List α) :
    (l1 ++ l2).find? p =
      match l1.find? p with
      | some x => some x
      | none => l2.find? p := by
  induction l1 with
  | nil => rfl
  | cons a l ih =>
      by_cases h : p a = true
      · simp [List.find?_cons_of_pos _ h]
      · simp [List.find?_cons_of_neg _ h, ih]

/-- The record built by the profile reduce resolves a key to the last fetched
profile carrying that id, falling back to the accumulator. -/
lemma foldl_recordSet_eq_find (data : List Profile)
    (acc : String → Option Profile) (k : String) :
    (data.foldl recordSet acc) k =
      match data.reverse.find? (fun p => p.id = k) with
      | some p => some p
      | none => acc k := by
  induction data generalizing acc with
  | nil => rfl
  | cons p ps ih =>
      rw [List.foldl_cons, ih, List.reverse_cons,
        find?_append_cases (fun q => decide (q.id = k)) ps.reverse [p]]
      cases hf : ps.reverse.find? (fun q => decide (q.id = k)) with
      | some q => rfl
      | none =>
          by_cases hk : p.id = k
          · simp [List.find?, recordSet, hk]
          · have hk2 : ¬ (k = p.id) := fun h => hk h.symm
            simp [List.find?, recordSet, hk, hk2]

/-- C9: fetchProfiles on success merges the fetched records into the cache
keyed by id: a key not carried by any fetched record keeps its previous value,
while a key carried by fetched records ends at the last such record
(last-write-wins, overwriting any existing entry); on a failed resolution the
whole state, in particular the cache, is unchanged. -/
theorem fetchProfiles_spec (st : AppState) (data : List Profile) (k : String)
    (e : String) :
    ((∀ p ∈ data, p.id ≠ k) →
      (fetchProfiles st (Except.ok data)).profiles k = st.profiles k) ∧
    (∀ p : Profile, data.reverse.find? (fun q => q.id = k) = some p →
      (fetchProfiles st (Except.ok data)).profiles k = some p) ∧
    fetchProfiles st (Except.error e) = st := by
  have hbase : (fetchProfiles st (Except.ok data)).profiles k =
      match data.reverse.find? (fun p => p.id = k) with
      | some p => some p
      | none => st.profiles k := by
    show spreadMerge st.profiles (profileMapOf data) k = _
    rw [spreadMerge, profileMapOf,
      foldl_recordSet_eq_find data (fun _ => none) k]
    cases data.reverse.find? (fun p => decide (p.id = k)) <;> rfl
  refine ⟨?_, ?_, rfl⟩
  · intro hall
    have hnone : data.reverse.find? (fun p => decide (p.id = k)) = none := by
      rw [List.find?_eq_none]
      intro x hx
      simp only [decide_eq_true_eq]
      exact hall x (List.mem_reverse.mp hx)
    rw [hbase, hnone]
  · intro p hp
    rw [hbase, hp]

/-- C9 witness: fetching two records for u1 overwrites the cached u1 with the
later record; a fetch not mentioning u2 leaves u2 unchanged; a failed fetch
leaves the state unchanged. -/
theorem fetchProfiles_spec_witness :
    (fetchProfiles stBase (Except.ok [profU1, profU1b])).profiles "u1" =
      some profU1b ∧
    (fetchProfiles stBase (Except.ok [profU1b])).profiles "u2" =
      stBase.profiles "u2" ∧
    fetchProfiles stBase (Except.error "boom") = stBase :=
  ⟨(fetchProfiles_spec stBase [profU1, profU1b] "u1" "boom").2.1 profU1b
      (by decide),
   (fetchProfiles_spec stBase [profU1b] "u2" "boom").1 (by decide),
   (fetchProfiles_spec stBase [] "u1" "boom").2.2⟩

/-- C10: whenever a session is present and loading has resolved, the committed
render is the chat view regardless of the stored view flag — for a non-chat
flag the render pass performs the setView mutation to chat — so an
authenticated user never sees the login or signup view. -/
theorem authenticated_renders_chat (ld : Bool) (s : Session) (v : View)
    (h : ld = false) :
    render ld (some s) v = Rendered.chatView ∧
    (v ≠ View.chat → renderOnce ld (some s) v = Sum.inr View.chat) := by
  subst h
  cases v with
  | chat => exact ⟨rfl, fun hne => absurd rfl hne⟩
  | login => exact ⟨rfl, fun _ => rfl⟩
  | signup => exact ⟨rfl, fun _ => rfl⟩

/-- C10 witness: with an active session, loading resolved and the view flag
still on login, the render pass mutates the flag to chat and the committed
render is the chat view. -/
theorem authenticated_renders_chat_witness :
    render false (some sessA) View.login = Rendered.chatView ∧
    renderOnce false (some sessA) View.login = Sum.inr View.chat :=
  ⟨(authenticated_renders_chat false sessA View.login rfl).1,
   (authenticated_renders_chat false sessA View.login rfl).2 (by decide)⟩

end ComposeChat
